import Mathlib

/-!
Shallow embedding of `start-stop-restart-services.py`: a batch job that
resolves EC2 instances by `Name`/`Hostname` tags, detects each instance's
platform, generates a platform-specific service-control script and submits
it over SSM. Definitions follow the Python source function by function;
theorems settle the specification claims about the pipeline.
-/

/-- Boolean infix test on character lists: `listIsInfix pat hay` is true iff
`pat` occurs contiguously inside `hay`. -/
def listIsInfix : List Char → List Char → Bool
  | pat, [] => pat.isEmpty
  | pat, c :: t => pat.isPrefixOf (c :: t) || listIsInfix pat t

/-- Substring test on strings, modelling `grep -q "$svc"` applied to one line
of output (for patterns without regex metacharacters, `grep` matches a line
iff the pattern is a substring of it). -/
def strContains (hay pat : String) : Bool :=
  listIsInfix pat.toList hay.toList

/-- Splitting of a character list at every separator character satisfying
`p`, keeping empty fields; `acc` holds the current field reversed. -/
def splitCharsBy (p : Char → Bool) : List Char → List Char → List (List Char)
  | [], acc => [acc.reverse]
  | c :: rest, acc =>
    if p c then acc.reverse :: splitCharsBy p rest []
    else splitCharsBy p rest (c :: acc)

/-- Splitting a string on commas, keeping empty segments, as done by
Python's `str.split(",")` and by PowerShell's `-split ","`. -/
def splitOnComma (s : String) : List String :=
  (splitCharsBy (fun c => c == ',') s.toList []).map String.mk

/-- Python whitespace as recognised by `str.strip()`. -/
def isPySpace (c : Char) : Bool :=
  c == ' ' || c == '\t' || c == '\n' || c == '\r' || c == '\x0b' || c == '\x0c'

/-- Python's `str.strip()`: remove leading and trailing whitespace. -/
def pyStrip (s : String) : String :=
  String.mk (((s.toList.dropWhile isPySpace).reverse.dropWhile isPySpace).reverse)

/-- Default IFS characters of the shell: space, tab, newline. -/
def isIFS (c : Char) : Bool :=
  c == ' ' || c == '\t' || c == '\n'

/-- Word splitting performed by the shell in `for svc in $services` (line 67
of the source): the unquoted expansion is split on the default IFS
characters space, tab and newline, dropping empty fields. Commas are NOT
IFS characters, so they do not split. -/
def shellWords (s : String) : List String :=
  ((splitCharsBy isIFS s.toList []).map String.mk).filter (fun w => w != "")

/-- Python's `str.lower()` (ASCII case folding). -/
def pyLower (s : String) : String :=
  String.mk (s.toList.map Char.toLower)

/-- Python's `str.capitalize()` as used in the SSM comment (line 122):
lower-cases the string and upper-cases the first character. -/
def pyCapitalize (s : String) : String :=
  match s.toList.map Char.toLower with
  | [] => ""
  | c :: t => String.mk (c.toUpper :: t)

/-- Truthiness test `not v` of `main` (line 90) on a `os.getenv` result: the
variable is missing (`None`) or the empty string. -/
def blankEnvVar : Option String → Bool
  | none => true
  | some s => s == ""

/-- Line 93 of the source:
`server_list = [s.strip() for s in servers.split(",") if s.strip()]`. -/
def parseNames (servers : String) : List String :=
  (((splitOnComma servers)).filter (fun s => pyStrip s != "")).map pyStrip

/-- Spec-side restatement of the target-name parsing for claim C10: split on
commas, strip surrounding whitespace from every segment, then drop the
segments that became empty, preserving order. -/
def specNames (servers : String) : List String :=
  (((splitOnComma servers)).map pyStrip).filter (fun s => s != "")

/-- One EC2 instance record as consumed by the resolver: its id and its
lifecycle state name (`inst["State"]["Name"]`). -/
structure Inst where
  instanceId : String
  state : String
deriving DecidableEq, Repr

/-- One reservation from a `describe_instances` response: a list of
instance records. -/
structure Reservation where
  instances : List Inst
deriving DecidableEq, Repr

/-- Lines 24-30 of the source: walk all reservations from both tag queries,
keep the ids of instances whose state is `running`, and deduplicate
(`list(set(instances))`; the Python set has arbitrary order, modelled here
by `List.dedup`, which preserves membership and removes duplicates). -/
def collectRunningIds (reservations : List Reservation) : List String :=
  ((((reservations.flatMap Reservation.instances).filter
      (fun inst => inst.state == "running")).map Inst.instanceId)).dedup

/-- Per-instance dispatch outcome of the main loop. -/
inductive Outcome where
  | sent (commandId : String)
  | platformDetectFailed
  | submitFailed
deriving DecidableEq, Repr

/-- Network calls issued by the pipeline, in order, used to state the
"before any network call" / "never reaches submission" claims. -/
inductive Call where
  | describeByTagName (names : List String)
  | describeByTagHostname (names : List String)
  | describeInstance (id : String)
  | sendCommand (id document script : String)
deriving DecidableEq, Repr

/-- Terminal result of one run of `main`. -/
inductive PipelineResult where
  | configError (msg : String)
  | inventoryError (msg : String)
  | noInstances
  | completed (outcomes : List (String × Outcome))
deriving DecidableEq, Repr

/-- Process exit code of each terminal result: the uncaught `ValueError`
(line 91) and both `sys.exit(1)` sites (lines 22, 98) exit non-zero; a
`main` that falls off the end of the dispatch loop exits 0 regardless of
per-instance outcomes. -/
def exitCode : PipelineResult → Nat
  | .configError _ => 1
  | .inventoryError _ => 1
  | .noInstances => 1
  | .completed _ => 0

/-- Whether the run died at configuration validation. -/
def PipelineResult.isConfigError : PipelineResult → Bool
  | .configError _ => true
  | _ => false

/-- Source lines 64-80: the f-string body of `build_linux_script`, with
`services` and `action` interpolated verbatim. -/
def build_linux_script (services action : String) : String :=
  "\nservices=\"" ++ services ++ "\"\n" ++
  "for svc in $services; do\n" ++
  "    if systemctl list-unit-files | grep -q \"$svc\"; then\n" ++
  "        if [ \"" ++ action ++ "\" = \"start\" ]; then\n" ++
  "            sudo systemctl start \"$svc\" && echo \"Started $svc\" || echo \"Failed to start $svc\"\n" ++
  "        elif [ \"" ++ action ++ "\" = \"stop\" ]; then\n" ++
  "            sudo systemctl stop \"$svc\" && echo \"Stopped $svc\" || echo \"Failed to stop $svc\"\n" ++
  "        elif [ \"" ++ action ++ "\" = \"restart\" ]; then\n" ++
  "            sudo systemctl restart \"$svc\" && echo \"Restarted $svc\" || echo \"Failed to restart $svc\"\n" ++
  "        fi\n" ++
  "    else\n" ++
  "        echo \"Error: $svc not found on this system\"\n" ++
  "    fi\n" ++
  "done\n"

/-- Source lines 33-61: the rf-string body of `build_windows_script`
(doubled braces in the Python source denote literal braces). -/
def build_windows_script (services action : String) : String :=
  "\n$services=\"" ++ services ++ "\" -split \",\"\n" ++
  "foreach($svc in $services)\x7b\n" ++
  "    try \x7b\n" ++
  "        $s = Get-Service -Name $svc -ErrorAction Stop\n" ++
  "        if (\"" ++ action ++ "\" -eq \"start\") \x7b\n" ++
  "            if ($s.Status -ne \"Running\") \x7b\n" ++
  "                Start-Service -Name $svc -ErrorAction Stop\n" ++
  "                Write-Host (\"Started \" + $s.DisplayName)\n" ++
  "            \x7d else \x7b\n" ++
  "                Write-Host ($s.DisplayName + \" already running\")\n" ++
  "            \x7d\n" ++
  "        \x7d elseif (\"" ++ action ++ "\" -eq \"stop\") \x7b\n" ++
  "            if ($s.Status -ne \"Stopped\") \x7b\n" ++
  "                Stop-Service -Name $svc -ErrorAction Stop\n" ++
  "                Write-Host (\"Stopped \" + $s.DisplayName)\n" ++
  "            \x7d else \x7b\n" ++
  "                Write-Host ($s.DisplayName + \" already stopped\")\n" ++
  "            \x7d\n" ++
  "        \x7d elseif (\"" ++ action ++ "\" -eq \"restart\") \x7b\n" ++
  "            Restart-Service -Name $svc -Force -ErrorAction Stop\n" ++
  "            Write-Host (\"Restarted \" + $s.DisplayName)\n" ++
  "        \x7d\n" ++
  "    \x7d catch \x7b\n" ++
  "        Write-Host (\"Error with \" + $svc + \": \" + $_)\n" ++
  "    \x7d\n" ++
  "\x7d\n"

/-- Service-manager invocations a generated script performs on the target
host (recorded even when the invocation then fails). -/
inductive SvcEffect where
  | start (svc : String)
  | stop (svc : String)
  | restart (svc : String)
deriving DecidableEq, Repr

/-- State of the Linux target host the generated shell script runs on:
the lines printed by `systemctl list-unit-files`, the actual run state of
each unit (which the generated script never consults), and whether each
`systemctl start/stop/restart` invocation exits 0. -/
structure LinuxEnv where
  unitListing : List String
  running : String → Bool
  startOk : String → Bool
  stopOk : String → Bool
  restartOk : String → Bool

/-- Existence test of the generated shell script (source line 68):
`systemctl list-unit-files | grep -q "$svc"` succeeds iff some listing line
contains `svc` as a substring. -/
def linuxUnitExists (env : LinuxEnv) (svc : String) : Bool :=
  env.unitListing.any (fun line => strContains line svc)

/-- Execution of one iteration of the generated shell script's loop body
(source lines 68-78) on word `svc`: output lines and invoked effects. An
action matching none of the three branches produces no output and no
effect. -/
def linuxSvcStep (env : LinuxEnv) (action svc : String) : List String × List SvcEffect :=
  if linuxUnitExists env svc then
    if action == "start" then
      ((if env.startOk svc then ["Started " ++ svc] else ["Failed to start " ++ svc]),
       [SvcEffect.start svc])
    else if action == "stop" then
      ((if env.stopOk svc then ["Stopped " ++ svc] else ["Failed to stop " ++ svc]),
       [SvcEffect.stop svc])
    else if action == "restart" then
      ((if env.restartOk svc then ["Restarted " ++ svc] else ["Failed to restart " ++ svc]),
       [SvcEffect.restart svc])
    else ([], [])
  else
    (["Error: " ++ svc ++ " not found on this system"], [])

/-- Execution of `build_linux_script services action` by the shell on host
state `env`: `for svc in $services` iterates over the IFS-split words of
the interpolated `services` string (see `shellWords`), running the loop
body for each word in order. -/
def runLinuxScript (services action : String) (env : LinuxEnv) :
    List String × List SvcEffect :=
  ((shellWords services).flatMap (fun svc => (linuxSvcStep env action svc).1),
   (shellWords services).flatMap (fun svc => (linuxSvcStep env action svc).2))

/-- One Windows service as seen by `Get-Service`: display name and status
string (`Running`, `Stopped`, ...). -/
structure WinService where
  displayName : String
  status : String
deriving DecidableEq, Repr

/-- State of the Windows target host: `Get-Service -Name` lookup (missing
service throws, i.e. `none`), success of each service-control cmdlet, and
the rendering of a thrown error record `$_`. -/
structure WinEnv where
  getService : String → Option WinService
  startOk : String → Bool
  stopOk : String → Bool
  restartOk : String → Bool
  errMsg : String → String

/-- Execution of one iteration of the generated PowerShell script's
`foreach` body (source lines 37-59) on name `svc`: a failed lookup or a
failed cmdlet lands in the `catch` block; an action matching no branch
produces no output and no effect. -/
def winSvcStep (env : WinEnv) (action svc : String) : List String × List SvcEffect :=
  match env.getService svc with
  | none => (["Error with " ++ svc ++ ": " ++ env.errMsg svc], [])
  | some s =>
    if action == "start" then
      if s.status != "Running" then
        if env.startOk svc then
          (["Started " ++ s.displayName], [SvcEffect.start svc])
        else
          (["Error with " ++ svc ++ ": " ++ env.errMsg svc], [SvcEffect.start svc])
      else ([s.displayName ++ " already running"], [])
    else if action == "stop" then
      if s.status != "Stopped" then
        if env.stopOk svc then
          (["Stopped " ++ s.displayName], [SvcEffect.stop svc])
        else
          (["Error with " ++ svc ++ ": " ++ env.errMsg svc], [SvcEffect.stop svc])
      else ([s.displayName ++ " already stopped"], [])
    else if action == "restart" then
      if env.restartOk svc then
        (["Restarted " ++ s.displayName], [SvcEffect.restart svc])
      else
        (["Error with " ++ svc ++ ": " ++ env.errMsg svc], [SvcEffect.restart svc])
    else ([], [])

/-- Execution of `build_windows_script services action` by PowerShell on
host state `env`: `"services" -split ","` splits the interpolated string on
commas (keeping empty segments), and the `foreach` body runs per segment. -/
def runWindowsScript (services action : String) (env : WinEnv) :
    List String × List SvcEffect :=
  ((splitOnComma services).flatMap (fun svc => (winSvcStep env action svc).1),
   (splitOnComma services).flatMap (fun svc => (winSvcStep env action svc).2))

/-- Cloud control-plane behaviour the run interacts with: the two
tag-filtered `describe_instances` queries of the resolver, the per-instance
`describe_instances(InstanceIds=[id])` lookup returning the optional
`Platform` attribute, and `ssm.send_command` (arguments: instance id,
document name, comment, script) returning a command id. Each call either
succeeds or raises, modelled by `Except`. -/
structure AwsEnv where
  describeByName : String → List String → Except String (List Reservation)
  describeByHostname : String → List String → Except String (List Reservation)
  describeInstance : String → Except String (Option String)
  sendCommand : String → String → String → String → Except String String

/-- Source lines 6-30, `get_instance_ids_by_name`: query by `tag:Name`, then
by `tag:Hostname`; a `ClientError` on either aborts the run (`sys.exit(1)`,
the second query is not attempted after the first fails); otherwise filter
to running instances and deduplicate. Returns the result together with the
network calls made. -/
def get_instance_ids_by_name (env : AwsEnv) (names : List String) (region : String) :
    Except String (List String) × List Call :=
  match env.describeByName region names with
  | .error e => (.error e, [.describeByTagName names])
  | .ok r1 =>
    match env.describeByHostname region names with
    | .error e => (.error e, [.describeByTagName names, .describeByTagHostname names])
    | .ok r2 =>
      (.ok (collectRunningIds (r1 ++ r2)),
       [.describeByTagName names, .describeByTagHostname names])

/-- Source lines 111-116: pick script text and SSM document from the
detected platform string; the comparison is `platform.lower() == "windows"`
and everything else takes the Linux branch. Returns (script, document). -/
def selectScript (platform services action : String) : String × String :=
  if pyLower platform == "windows" then
    (build_windows_script services action, "AWS-RunPowerShellScript")
  else
    (build_linux_script services action, "AWS-RunShellScript")

/-- Error message passed to `send_command` as the `Comment` argument
(source line 122). -/
def commandComment (services action : String) : String :=
  pyCapitalize action ++ " services: " ++ services

/-- One iteration of the dispatch loop (source lines 103-128): platform
lookup (`.get("Platform", "Linux")` defaulting when the attribute is
absent; any exception is logged and the instance skipped with `continue`),
script/document selection, and a single `send_command` whose `ClientError`
is logged without retry. Returns the labelled outcome and the network calls
made for this instance. -/
def dispatchOne (env : AwsEnv) (services action : String) (instanceId : String) :
    (String × Outcome) × List Call :=
  match env.describeInstance instanceId with
  | .error _ => ((instanceId, .platformDetectFailed), [.describeInstance instanceId])
  | .ok attr =>
    let platform := attr.getD "Linux"
    let sd := selectScript platform services action
    match env.sendCommand instanceId sd.2 (commandComment services action) sd.1 with
    | .ok commandId =>
      ((instanceId, .sent commandId),
       [.describeInstance instanceId, .sendCommand instanceId sd.2 sd.1])
    | .error _ =>
      ((instanceId, .submitFailed),
       [.describeInstance instanceId, .sendCommand instanceId sd.2 sd.1])

/-- The whole dispatch loop: one outcome per resolved instance, in order,
and the concatenated network trace. -/
def dispatchAll (env : AwsEnv) (services action : String) (ids : List String) :
    List (String × Outcome) × List Call :=
  (ids.map (fun i => (dispatchOne env services action i).1),
   ids.flatMap (fun i => (dispatchOne env services action i).2))

/-- Configuration read from the environment at the top of `main`
(lines 85-88): `os.getenv` yields `none` when a variable is unset. -/
structure Config where
  servers : Option String
  services : Option String
  action : Option String
  region : Option String

/-- Source lines 83-128, `main`: presence check on the three required
variables (uncaught `ValueError` otherwise), target-name parsing,
resolution, the empty-resolution `sys.exit(1)`, then the dispatch loop.
Returns the terminal result and the ordered network trace. -/
def runPipeline (cfg : Config) (env : AwsEnv) : PipelineResult × List Call :=
  if blankEnvVar cfg.servers || blankEnvVar cfg.services || blankEnvVar cfg.action then
    (.configError "Missing required env vars: servers, Service, Action", [])
  else
    let services := cfg.services.getD ""
    let action := cfg.action.getD ""
    let region := cfg.region.getD "us-east-1"
    let server_list := parseNames (cfg.servers.getD "")
    match get_instance_ids_by_name env server_list region with
    | (.error e, calls) => (.inventoryError e, calls)
    | (.ok instance_ids, calls) =>
      if instance_ids.isEmpty then
        (.noInstances, calls)
      else
        let d := dispatchAll env services action instance_ids
        (.completed d.1, calls ++ d.2)

/-- Linux host fixture: `nginx` and `redis` units installed, every unit
currently running, every `systemctl` invocation succeeding. -/
def stdLinuxHost : LinuxEnv :=
  ⟨["nginx.service enabled", "redis.service enabled"],
   fun _ => true, fun _ => true, fun _ => true, fun _ => true⟩

/-- Windows host fixture: every lookup resolves to a running service with
display name `Nginx`. -/
def runningWinHost : WinEnv :=
  ⟨fun _ => some ⟨"Nginx", "Running"⟩,
   fun _ => true, fun _ => true, fun _ => true, fun _ => "lookup failed"⟩

/-- Control-plane fixture: the `tag:Name` query returns one running
instance `i-1`, the `tag:Hostname` query nothing, the platform attribute is
absent, and submissions succeed. -/
def oneLinuxInstanceAws : AwsEnv :=
  ⟨fun _ _ => .ok [⟨[⟨"i-1", "running"⟩]⟩], fun _ _ => .ok [],
   fun _ => .ok none, fun _ _ _ _ => .ok "cmd-1"⟩

/-- Control-plane fixture whose per-instance platform lookup fails for
`i-2` only; every submission succeeds with command id `cmd-0`. -/
def flakyDetectAws : AwsEnv :=
  ⟨fun _ _ => .ok [], fun _ _ => .ok [],
   fun i => if i == "i-2" then .error "instance vanished" else .ok none,
   fun _ _ _ _ => .ok "cmd-0"⟩

/-- Control-plane fixture whose submissions always raise `ClientError`. -/
def failingSendAws : AwsEnv :=
  ⟨fun _ _ => .ok [], fun _ _ => .ok [],
   fun _ => .ok none, fun _ _ _ _ => .error "AccessDenied"⟩

/-- Control-plane fixture where both inventory queries match nothing. -/
def emptyFleetAws : AwsEnv :=
  ⟨fun _ _ => .ok [], fun _ _ => .ok [],
   fun _ => .ok none, fun _ _ _ _ => .ok "cmd-1"⟩

/-- Reservations returned by the `tag:Name` query in the resolver fixture:
`i-1` running and `i-2` stopped. -/
def dupReservations1 : List Reservation := [⟨[⟨"i-1", "running"⟩, ⟨"i-2", "stopped"⟩]⟩]

/-- Reservations returned by the `tag:Hostname` query in the resolver
fixture: the same running `i-1` again. -/
def dupReservations2 : List Reservation := [⟨[⟨"i-1", "running"⟩]⟩]

/-- Control-plane fixture whose two tag queries both match instance `i-1`
and whose `tag:Name` query also returns a stopped instance. -/
def dupAws : AwsEnv :=
  ⟨fun _ _ => .ok dupReservations1, fun _ _ => .ok dupReservations2,
   fun _ => .ok none, fun _ _ _ _ => .ok "cmd-1"⟩

/-- Configuration fixture with a non-empty action outside the recognized
set. -/
def cfgInvalidAction : Config := ⟨some "web-1", some "nginx", some "reboot", none⟩

/-- Configuration fixture with the `Action` variable unset. -/
def cfgMissingAction : Config := ⟨some "web-1", some "nginx", none, none⟩

/-- Configuration fixture naming a target that matches nothing. -/
def cfgGhost : Config := ⟨some "ghost", some "nginx", some "stop", none⟩

/-- Whether a network call is a command submission targeting instance `i`. -/
def isSendTo (i : String) : Call → Bool
  | .sendCommand j _ _ => j == i
  | _ => false

/-- Filtering a mapped list commutes with mapping the filtered list when
the predicate factors through the map. -/
theorem map_pyStrip_filter (l : List String) :
    (l.filter (fun s => pyStrip s != "")).map pyStrip
      = (l.map pyStrip).filter (fun s => s != "") := by
  induction l with
  | nil => rfl
  | cons a t ih =>
    cases h : pyStrip a != "" <;>
      simp [List.filter_cons, h, ih]

/-- C10: for every target-names configuration string, the list passed to
resolution consists of the comma-separated segments with surrounding
whitespace stripped and empty segments removed, in order; in particular
`" web-1, ,web-2 "` yields exactly `["web-1", "web-2"]`. -/
theorem parseNames_strips_and_drops_empties (servers : String) :
    parseNames servers = specNames servers ∧
    parseNames " web-1, ,web-2 " = ["web-1", "web-2"] := by
  refine ⟨?_, by decide⟩
  unfold parseNames specNames
  exact map_pyStrip_filter (splitOnComma servers)

/-- C5: whenever both inventory queries succeed, the resolver returns
exactly the deduplicated running ids: the result has no duplicate
identifiers, and every returned id is the id of some instance from the two
query results whose lifecycle state is `running`. -/
theorem resolve_running_only_and_nodup
    (env : AwsEnv) (names : List String) (region : String)
    (r1 r2 : List Reservation)
    (h1 : env.describeByName region names = .ok r1)
    (h2 : env.describeByHostname region names = .ok r2) :
    (get_instance_ids_by_name env names region).1 = .ok (collectRunningIds (r1 ++ r2)) ∧
    (collectRunningIds (r1 ++ r2)).Nodup ∧
    ∀ id ∈ collectRunningIds (r1 ++ r2),
      ∃ inst ∈ (r1 ++ r2).flatMap Reservation.instances,
        inst.instanceId = id ∧ inst.state = "running" := by
  refine ⟨by simp [get_instance_ids_by_name, h1, h2], List.nodup_dedup _, ?_⟩
  intro id hid
  unfold collectRunningIds at hid
  rw [List.mem_dedup, List.mem_map] at hid
  obtain ⟨inst, hmem, heq2⟩ := hid
  rw [List.mem_filter] at hmem
  exact ⟨inst, hmem.1, heq2, by simpa using hmem.2⟩

/-- Witness for C5 at a fixture where the same running instance matches
both tag filters and a stopped instance matches one of them. -/
theorem resolve_running_only_and_nodup_witness :
    (get_instance_ids_by_name dupAws ["web-1"] "us-east-1").1 =
      .ok (collectRunningIds (dupReservations1 ++ dupReservations2)) ∧
    (collectRunningIds (dupReservations1 ++ dupReservations2)).Nodup ∧
    ∃ inst ∈ (dupReservations1 ++ dupReservations2).flatMap Reservation.instances,
      inst.instanceId = "i-1" ∧ inst.state = "running" := by
  have h := resolve_running_only_and_nodup dupAws ["web-1"] "us-east-1"
    dupReservations1 dupReservations2 rfl rfl
  exact ⟨h.1, h.2.1, h.2.2 "i-1" (by decide)⟩

/-- C9: the dispatcher picks the PowerShell script and the
`AWS-RunPowerShellScript` document exactly when the lower-cased platform
string is `windows`; every other platform value selects the Linux shell
script and `AWS-RunShellScript`. -/
theorem windows_document_iff_platform_windows
    (platform services action : String) :
    (selectScript platform services action =
        (build_windows_script services action, "AWS-RunPowerShellScript") ↔
      pyLower platform = "windows") ∧
    (pyLower platform ≠ "windows" →
      selectScript platform services action =
        (build_linux_script services action, "AWS-RunShellScript")) := by
  by_cases h : pyLower platform = "windows"
  · refine ⟨⟨fun _ => h, fun _ => ?_⟩, fun hn => absurd h hn⟩
    simp [selectScript, h]
  · have hb : (pyLower platform == "windows") = false := by
      simpa using h
    refine ⟨⟨fun heq => ?_, fun hw => absurd hw h⟩, fun _ => by simp [selectScript, hb]⟩
    have : selectScript platform services action =
        (build_linux_script services action, "AWS-RunShellScript") := by
      simp [selectScript, hb]
    rw [this] at heq
    have hdoc : "AWS-RunShellScript" = "AWS-RunPowerShellScript" :=
      congrArg Prod.snd heq
    exact absurd hdoc (by decide)

/-- Witness for C9: a detected platform value `Windows` selects the
PowerShell document. -/
theorem windows_document_iff_platform_windows_witness :
    selectScript "Windows" "nginx" "stop" =
      (build_windows_script "nginx" "stop", "AWS-RunPowerShellScript") :=
  (windows_document_iff_platform_windows "Windows" "nginx" "stop").1.mpr (by decide)

/-- C8: for an instance whose inventory record carries no platform
attribute, the detected platform defaults to `Linux`, so the dispatcher
submits the Linux shell script under the `AWS-RunShellScript` document
(whatever the submission's own outcome). -/
theorem missing_platform_defaults_to_linux
    (env : AwsEnv) (services action i : String)
    (hdet : env.describeInstance i = .ok none) :
    selectScript "Linux" services action =
      (build_linux_script services action, "AWS-RunShellScript") ∧
    (dispatchOne env services action i).2 =
      [.describeInstance i,
       .sendCommand i "AWS-RunShellScript" (build_linux_script services action)] := by
  have hsel : selectScript "Linux" services action =
      (build_linux_script services action, "AWS-RunShellScript") := by
    simp [selectScript, show (pyLower "Linux" == "windows") = false from by decide]
  refine ⟨hsel, ?_⟩
  unfold dispatchOne
  rw [hdet]
  simp only [Option.getD, hsel]
  cases env.sendCommand i "AWS-RunShellScript" (commandComment services action)
      (build_linux_script services action) <;> rfl

/-- Witness for C8 at the fixture whose platform attribute is absent. -/
theorem missing_platform_defaults_to_linux_witness :
    selectScript "Linux" "nginx" "stop" =
      (build_linux_script "nginx" "stop", "AWS-RunShellScript") ∧
    (dispatchOne oneLinuxInstanceAws "nginx" "stop" "i-1").2 =
      [.describeInstance "i-1",
       .sendCommand "i-1" "AWS-RunShellScript" (build_linux_script "nginx" "stop")] :=
  missing_platform_defaults_to_linux oneLinuxInstanceAws "nginx" "stop" "i-1" rfl

/-- C2 (code bug): on a Linux host where the units `nginx` and `redis` both
exist, the script generated for the comma-separated service list
`"nginx,redis"` with action `start` does NOT evaluate the two services
independently: the generated `for svc in $services` loop splits on
whitespace, not commas, so the single word `nginx,redis` is looked up as
one service, reported once as not found, and no service is started. -/
theorem comma_list_evaluated_as_single_service :
    linuxUnitExists stdLinuxHost "nginx" = true ∧
    linuxUnitExists stdLinuxHost "redis" = true ∧
    shellWords "nginx,redis" = ["nginx,redis"] ∧
    runLinuxScript "nginx,redis" "start" stdLinuxHost =
      (["Error: nginx,redis not found on this system"], []) := by
  decide

/-- C3 counterexample: on a Linux host where `nginx` exists and is already
running, the generated start script invokes `systemctl start` anyway and
reports `Started nginx` — it has no "already running" branch. -/
theorem linux_start_has_no_idempotent_branch :
    stdLinuxHost.running "nginx" = true ∧
    linuxUnitExists stdLinuxHost "nginx" = true ∧
    runLinuxScript "nginx" "start" stdLinuxHost =
      (["Started nginx"], [SvcEffect.start "nginx"]) := by
  decide

/-- C3 (amended): only the Windows script has the idempotent start branch:
when the service exists and is already `Running` it reports "already
running" and performs no start, and when it is not running it starts it and
reports success; the Linux script, whenever the unit listing matches the
service, unconditionally invokes `systemctl start` and reports
`Started`/`Failed to start`, never "already running". -/
theorem start_idempotent_only_on_windows
    (wenv : WinEnv) (svc : String) (s : WinService) (lenv : LinuxEnv)
    (hw : wenv.getService svc = some s)
    (hl : linuxUnitExists lenv svc = true) :
    (s.status = "Running" →
      winSvcStep wenv "start" svc = ([s.displayName ++ " already running"], [])) ∧
    (s.status ≠ "Running" → wenv.startOk svc = true →
      winSvcStep wenv "start" svc = (["Started " ++ s.displayName], [SvcEffect.start svc])) ∧
    linuxSvcStep lenv "start" svc =
      ((if lenv.startOk svc then ["Started " ++ svc] else ["Failed to start " ++ svc]),
       [SvcEffect.start svc]) := by
  refine ⟨fun hrun => ?_, fun hrun hok => ?_, ?_⟩
  · simp [winSvcStep, hw, hrun]
  · have hb : (s.status != "Running") = true := by
      simpa using hrun
    simp [winSvcStep, hw, hb, hok]
  · simp [linuxSvcStep, hl]

/-- Witness for C3's amended statement: the running Windows fixture takes
the "already running" branch while the Linux fixture reports `Started`. -/
theorem start_idempotent_only_on_windows_witness :
    winSvcStep runningWinHost "start" "nginx" = (["Nginx already running"], []) ∧
    linuxSvcStep stdLinuxHost "start" "nginx" =
      (["Started nginx"], [SvcEffect.start "nginx"]) := by
  have h := start_idempotent_only_on_windows runningWinHost "nginx"
    ⟨"Nginx", "Running"⟩ stdLinuxHost rfl (by decide)
  exact ⟨h.1 rfl, by simpa [stdLinuxHost] using h.2.2⟩

/-- C4: when the platform lookup fails for the second of three resolved
instances while the other lookups and submissions succeed, the dispatch
loop yields exactly the three outcomes sent, platformDetectFailed, sent in
order, and no command submission ever targets the failing instance. -/
theorem platform_failure_isolated_in_dispatch
    (env : AwsEnv) (services action i1 i2 i3 : String)
    (p1 p3 : Option String) (c1 c3 e : String)
    (h1 : env.describeInstance i1 = .ok p1)
    (h2 : env.describeInstance i2 = .error e)
    (h3 : env.describeInstance i3 = .ok p3)
    (hs1 : ∀ d c s, env.sendCommand i1 d c s = .ok c1)
    (hs3 : ∀ d c s, env.sendCommand i3 d c s = .ok c3) :
    (dispatchAll env services action [i1, i2, i3]).1 =
      [(i1, .sent c1), (i2, .platformDetectFailed), (i3, .sent c3)] ∧
    ∀ d s, Call.sendCommand i2 d s ∉ (dispatchAll env services action [i1, i2, i3]).2 := by
  have ho1 : dispatchOne env services action i1 =
      ((i1, .sent c1),
       [.describeInstance i1,
        .sendCommand i1 (selectScript (p1.getD "Linux") services action).2
          (selectScript (p1.getD "Linux") services action).1]) := by
    simp [dispatchOne, h1, hs1]
  have ho2 : dispatchOne env services action i2 =
      ((i2, .platformDetectFailed), [.describeInstance i2]) := by
    simp [dispatchOne, h2]
  have ho3 : dispatchOne env services action i3 =
      ((i3, .sent c3),
       [.describeInstance i3,
        .sendCommand i3 (selectScript (p3.getD "Linux") services action).2
          (selectScript (p3.getD "Linux") services action).1]) := by
    simp [dispatchOne, h3, hs3]
  refine ⟨by simp [dispatchAll, ho1, ho2, ho3], ?_⟩
  intro d s hmem
  simp only [dispatchAll, List.flatMap_cons, List.flatMap_nil, ho1, ho2, ho3,
    List.append_nil, List.mem_append, List.mem_cons, List.not_mem_nil, or_false] at hmem
  rcases hmem with (h | h) | h | (h | h) | h <;> first
    | exact Call.noConfusion h
    | · have hi : i2 = i1 := (Call.sendCommand.injEq _ _ _ _ _ _ ▸ h).1
        rw [hi, h1] at h2
        exact Except.noConfusion h2
    | · have hi : i2 = i3 := (Call.sendCommand.injEq _ _ _ _ _ _ ▸ h).1
        rw [hi, h3] at h2
        exact Except.noConfusion h2

/-- Witness for C4 at the fixture whose platform lookup fails for `i-2`. -/
theorem platform_failure_isolated_in_dispatch_witness :
    (dispatchAll flakyDetectAws "nginx" "start" ["i-1", "i-2", "i-3"]).1 =
      [("i-1", Outcome.sent "cmd-0"), ("i-2", Outcome.platformDetectFailed),
       ("i-3", Outcome.sent "cmd-0")] ∧
    ∀ d s, Call.sendCommand "i-2" d s ∉
      (dispatchAll flakyDetectAws "nginx" "start" ["i-1", "i-2", "i-3"]).2 :=
  platform_failure_isolated_in_dispatch flakyDetectAws "nginx" "start" "i-1" "i-2" "i-3"
    none none "cmd-0" "cmd-0" "instance vanished"
    (by simp [flakyDetectAws]) (by simp [flakyDetectAws]) (by simp [flakyDetectAws])
    (fun _ _ _ => rfl) (fun _ _ _ => rfl)

/-- C7: when submission raises for an instance whose platform was detected,
the loop records `submitFailed` for it and still processes every preceding
and following instance; that instance's iteration makes exactly one
submission attempt (no retry); and a completed run exits 0 regardless of
per-instance failures. -/
theorem submission_failure_isolated_no_retry
    (env : AwsEnv) (services action : String) (pre post : List String)
    (i : String) (p : Option String)
    (hdet : env.describeInstance i = .ok p)
    (hsend : ∀ d c s, ∃ e, env.sendCommand i d c s = .error e) :
    (dispatchAll env services action (pre ++ i :: post)).1 =
      (dispatchAll env services action pre).1 ++
        (i, Outcome.submitFailed) :: (dispatchAll env services action post).1 ∧
    ((dispatchOne env services action i).2.filter (isSendTo i)).length = 1 ∧
    exitCode (.completed ((dispatchAll env services action (pre ++ i :: post)).1)) = 0 := by
  obtain ⟨e, he⟩ := hsend (selectScript (p.getD "Linux") services action).2
    (commandComment services action) (selectScript (p.getD "Linux") services action).1
  have hone : dispatchOne env services action i =
      ((i, .submitFailed),
       [.describeInstance i,
        .sendCommand i (selectScript (p.getD "Linux") services action).2
          (selectScript (p.getD "Linux") services action).1]) := by
    simp [dispatchOne, hdet, he]
  refine ⟨by simp [dispatchAll, hone], ?_, rfl⟩
  rw [hone]
  simp [isSendTo]

/-- Witness for C7 at the fixture whose submissions always raise. -/
theorem submission_failure_isolated_no_retry_witness :
    (dispatchAll failingSendAws "nginx" "start" (["i-0"] ++ "i-5" :: ["i-9"])).1 =
      (dispatchAll failingSendAws "nginx" "start" ["i-0"]).1 ++
        ("i-5", Outcome.submitFailed) :: (dispatchAll failingSendAws "nginx" "start" ["i-9"]).1 ∧
    ((dispatchOne failingSendAws "nginx" "start" "i-5").2.filter (isSendTo "i-5")).length = 1 ∧
    exitCode (.completed ((dispatchAll failingSendAws "nginx" "start"
        (["i-0"] ++ "i-5" :: ["i-9"])).1)) = 0 :=
  submission_failure_isolated_no_retry failingSendAws "nginx" "start" ["i-0"] ["i-9"] "i-5"
    none rfl (fun _ _ _ => ⟨"AccessDenied", rfl⟩)

/-- C6: when the configuration is present and both inventory queries
succeed but no running instance matched, the pipeline stops with the
zero-instances report and exit code 1, having made only the two inventory
queries and no call to the remote-execution channel. -/
theorem empty_resolution_fatal_before_send
    (cfg : Config) (env : AwsEnv) (r1 r2 : List Reservation)
    (hs : blankEnvVar cfg.servers = false)
    (hv : blankEnvVar cfg.services = false)
    (ha : blankEnvVar cfg.action = false)
    (h1 : env.describeByName (cfg.region.getD "us-east-1")
      (parseNames (cfg.servers.getD "")) = .ok r1)
    (h2 : env.describeByHostname (cfg.region.getD "us-east-1")
      (parseNames (cfg.servers.getD "")) = .ok r2)
    (hempty : collectRunningIds (r1 ++ r2) = []) :
    runPipeline cfg env =
      (.noInstances,
       [.describeByTagName (parseNames (cfg.servers.getD "")),
        .describeByTagHostname (parseNames (cfg.servers.getD ""))]) ∧
    exitCode (runPipeline cfg env).1 = 1 ∧
    ∀ c ∈ (runPipeline cfg env).2, ∀ i d s, c ≠ Call.sendCommand i d s := by
  have hmain : runPipeline cfg env =
      (.noInstances,
       [.describeByTagName (parseNames (cfg.servers.getD "")),
        .describeByTagHostname (parseNames (cfg.servers.getD ""))]) := by
    simp [runPipeline, hs, hv, ha, get_instance_ids_by_name, h1, h2, hempty]
  refine ⟨hmain, by rw [hmain]; rfl, ?_⟩
  rw [hmain]
  intro c hc i d s
  simp only [List.mem_cons, List.not_mem_nil, or_false] at hc
  rcases hc with rfl | rfl <;> exact fun hcon => Call.noConfusion hcon

/-- Witness for C6: the `ghost` target on an empty fleet. -/
theorem empty_resolution_fatal_before_send_witness :
    runPipeline cfgGhost emptyFleetAws =
      (.noInstances,
       [.describeByTagName (parseNames (cfgGhost.servers.getD "")),
        .describeByTagHostname (parseNames (cfgGhost.servers.getD ""))]) ∧
    exitCode (runPipeline cfgGhost emptyFleetAws).1 = 1 ∧
    ∀ c ∈ (runPipeline cfgGhost emptyFleetAws).2, ∀ i d s, c ≠ Call.sendCommand i d s :=
  empty_resolution_fatal_before_send cfgGhost emptyFleetAws [] [] rfl rfl rfl rfl rfl rfl

set_option maxRecDepth 40000 in
/-- C1 counterexample: a configuration whose action is the non-empty but
unrecognized string `reboot` passes the presence-only validation, resolves
the fleet, and dispatches a command — the run does not fail before
resolution or dispatch, and exits 0. -/
theorem invalid_action_reaches_dispatch :
    (runPipeline cfgInvalidAction oneLinuxInstanceAws).1 =
      .completed [("i-1", Outcome.sent "cmd-1")] ∧
    (runPipeline cfgInvalidAction oneLinuxInstanceAws).2 =
      [.describeByTagName ["web-1"], .describeByTagHostname ["web-1"],
       .describeInstance "i-1",
       .sendCommand "i-1" "AWS-RunShellScript" (build_linux_script "nginx" "reboot")] ∧
    exitCode (runPipeline cfgInvalidAction oneLinuxInstanceAws).1 = 0 := by
  refine ⟨by decide, by decide, by decide⟩

/-- C1 (amended): before any network call the driver validates only the
presence of the three required values: the run fails up front (with no
network call) exactly when target names, service list, or action is missing
or empty; any non-empty action string, recognized or not, passes validation
and proceeds. -/
theorem config_validation_checks_presence_only (cfg : Config) (env : AwsEnv) :
    (runPipeline cfg env).1.isConfigError =
      (blankEnvVar cfg.servers || blankEnvVar cfg.services || blankEnvVar cfg.action) ∧
    ((blankEnvVar cfg.servers || blankEnvVar cfg.services || blankEnvVar cfg.action) = true →
      runPipeline cfg env =
        (.configError "Missing required env vars: servers, Service, Action", [])) := by
  by_cases h : (blankEnvVar cfg.servers || blankEnvVar cfg.services || blankEnvVar cfg.action) = true
  · refine ⟨?_, fun _ => by simp [runPipeline, h]⟩
    simp [runPipeline, h, PipelineResult.isConfigError]
  · have h' : (blankEnvVar cfg.servers || blankEnvVar cfg.services || blankEnvVar cfg.action)
        = false := by simpa using h
    refine ⟨?_, fun hc => absurd hc h⟩
    rw [h']
    simp only [runPipeline, h', Bool.false_eq_true, if_false]
    rcases hg : get_instance_ids_by_name env (parseNames (cfg.servers.getD ""))
      (cfg.region.getD "us-east-1") with ⟨res, calls⟩
    cases res with
    | error e => simp [hg, PipelineResult.isConfigError]
    | ok ids =>
      cases hi : ids.isEmpty <;> simp [hg, hi, PipelineResult.isConfigError]

/-- Witness for C1's amended statement: an unset `Action` variable fails
the run before any network call. -/
theorem config_validation_checks_presence_only_witness :
    runPipeline cfgMissingAction oneLinuxInstanceAws =
      (.configError "Missing required env vars: servers, Service, Action", []) :=
  (config_validation_checks_presence_only cfgMissingAction oneLinuxInstanceAws).2 rfl
